import Mathlib

/-!
Verification development for the NVD JSON feed adapter
(`cvefeed/nvdjson/interfaces.go`): the leaf rule matcher, the
configuration-tree adapter, the record accessors and the natural
version comparator. Go structures are embedded shallowly: nilable
pointers become `Option`, slices become `List`, a nil-pointer
dereference (a Go panic) is modelled as a `none` result, and the
external `wfn` package, which is consumed but not part of the source
under study, is modelled from its documented contract.
-/

set_option autoImplicit false

namespace NvdJson

/-- Modelled from the spec: an attribute of a canonical identifier
(the external identifier scheme of the `wfn` package) holds either the
wildcard ANY, the value NA (not applicable), or a literal string. -/
inductive AttrVal : Type where
  | Any : AttrVal
  | NA : AttrVal
  | Val : String → AttrVal
deriving DecidableEq, Repr

/-- Modelled from the spec: the structured attribute set of a canonical
identifier (`wfn.Attributes`, external to the source under study):
part, vendor, product, version, update, edition, language. -/
structure Attributes : Type where
  Part : AttrVal
  Vendor : AttrVal
  Product : AttrVal
  Version : AttrVal
  Update : AttrVal
  Edition : AttrVal
  Language : AttrVal
deriving DecidableEq, Repr

/-- Modelled from the spec: per-attribute wildcard match used by the
external structural-match primitive. ANY matches anything, NA matches
only NA or ANY, otherwise literal equality. -/
def matchAttr : AttrVal → AttrVal → Bool
  | AttrVal.Any, _ => true
  | _, AttrVal.Any => true
  | AttrVal.NA, AttrVal.NA => true
  | AttrVal.NA, _ => false
  | _, AttrVal.NA => false
  | AttrVal.Val a, AttrVal.Val b => a == b

/-- Modelled from the spec: the external structural-match primitive
`wfn.Match`, attribute-wise comparison with wildcard semantics across
all attributes. -/
def wfnMatch (src tgt : Attributes) : Bool :=
  matchAttr src.Part tgt.Part && matchAttr src.Vendor tgt.Vendor &&
  matchAttr src.Product tgt.Product && matchAttr src.Version tgt.Version &&
  matchAttr src.Update tgt.Update && matchAttr src.Edition tgt.Edition &&
  matchAttr src.Language tgt.Language

/-- Modelled from the spec: the external `wfn.StripSlashes`, which
removes the scheme-defined escape characters (backslashes) from a
version string before comparison. -/
def stripSlashes (s : String) : String :=
  String.mk (s.data.filter (fun c => c ≠ '\\'))

/-! ## The version comparator (`smartVerCmp`, `parseVerParts`) -/

/-- Length of the leading run of ASCII decimal digits, as counted by
the first loop of `parseVerParts`. -/
def digitRun : List Char → Nat
  | [] => 0
  | c :: rest => if c < '0' ∨ '9' < c then 0 else digitRun rest + 1

/-- Punctuation predicate of `parseVerParts`: a byte in the printable
range 33..126 that is neither a digit nor a letter. The backtick is
written via its code point 96. -/
def isPunct (b : Char) : Bool :=
  '!' ≤ b && b ≤ '~' &&
    !((('/' < b && b < ':') || ('@' < b && b < '[')) ||
      (Char.ofNat 96 < b && b < '{'))

/-- Translation of `parseVerParts`: returns the length of the leading
digit run, the index one past the last character to compare literally
(the first punctuation byte, or end of string), and the index at which
the next version part starts. -/
def parseVerParts (v : List Char) : Nat × Nat × Nat :=
  let num := digitRun v
  if num = v.length then (num, num, num)
  else
    match v.findIdx? isPunct with
    | none => (num, v.length, v.length)
    | some skip => (num, skip, skip + 1)

/-- Lexicographic three-way comparison of character lists, the
behaviour of `strings.Compare` on the ASCII strings at hand. -/
def listCompare : List Char → List Char → Int
  | [], [] => 0
  | [], _ :: _ => -1
  | _ :: _, [] => 1
  | a :: as, b :: bs => if a < b then -1 else if b < a then 1 else listCompare as bs

/-- Translation of the loop of `smartVerCmp`. `some r` models a return
from inside the loop; `none` models the loop exiting because a string
was exhausted. The fuel argument only bounds the iteration count: each
iteration consumes at least one character of the first string (see
`parseVerParts_skip_pos`), so `s1.length + 1` units never run out. -/
def cmpLoop : Nat → List Char → List Char → Option Int
  | 0, _, _ => none
  | fuel + 1, s1, s2 =>
    if s1.isEmpty || s2.isEmpty then none
    else
      let p1 := parseVerParts s1
      let p2 := parseVerParts s2
      if p1.1 > p2.1 then some 1
      else if p2.1 > p1.1 then some (-1)
      else
        let cmp := listCompare (s1.take p1.2.1) (s2.take p2.2.1)
        if cmp ≠ 0 then some cmp
        else cmpLoop fuel (s1.drop p1.2.2) (s2.drop p2.2.2)

/-- Translation of `smartVerCmp`: run the comparison loop; if it exits
with both segments so far equal, the longer original string wins. -/
def smartVerCmp (v1 v2 : String) : Int :=
  match cmpLoop (v1.data.length + 1) v1.data v2.data with
  | some r => r
  | none =>
    if v1.data.length > v2.data.length then 1
    else if v2.data.length > v1.data.length then -1
    else 0

/-! ## The raw feed record (`jsonschema` package, shapes as consumed
by `interfaces.go`) -/

/-- Translation of `jsonschema.NVDCVEFeedJSON10DefCPEMatch`, restricted
to the fields read by `interfaces.go`. Go strings default to the empty
string, which the source uses as the absence marker for the bounds. -/
structure CPEMatchJSON : Type where
  Cpe23Uri : String
  Cpe22Uri : String
  VersionStartIncluding : String
  VersionStartExcluding : String
  VersionEndIncluding : String
  VersionEndExcluding : String
deriving DecidableEq, Repr

/-- Translation of `jsonschema.NVDCVEFeedJSON10DefNode`: operator,
negate flag, child nodes and CPE match entries. -/
inductive NodeJSON : Type where
  | mk : String → Bool → List NodeJSON → List CPEMatchJSON → NodeJSON

def NodeJSON.Operator : NodeJSON → String
  | NodeJSON.mk op _ _ _ => op

def NodeJSON.Negate : NodeJSON → Bool
  | NodeJSON.mk _ n _ _ => n

def NodeJSON.Children : NodeJSON → List NodeJSON
  | NodeJSON.mk _ _ c _ => c

def NodeJSON.CPEMatch : NodeJSON → List CPEMatchJSON
  | NodeJSON.mk _ _ _ m => m

/-- Translation of `jsonschema.CVEJSON40LangString`. -/
structure LangString : Type where
  Lang : String
  Value : String
deriving DecidableEq, Repr

/-- Translation of a problem-type entry: its `Description` slice of
(nilable) language strings. -/
structure ProblemtypeEntry : Type where
  Description : List (Option LangString)
deriving DecidableEq, Repr

/-- Translation of the `Problemtype` section: a slice of nilable
problem-type entries. -/
structure ProblemtypeJSON : Type where
  ProblemtypeData : List (Option ProblemtypeEntry)
deriving DecidableEq, Repr

/-- Translation of the `Description` section of the CVE object. -/
structure DescriptionJSON : Type where
  DescriptionData : List (Option LangString)
deriving DecidableEq, Repr

/-- Translation of `jsonschema.CVEJSON40DataMeta`, restricted to the
`ID` field read by the source. -/
structure CVEDataMetaJSON : Type where
  ID : String
deriving DecidableEq, Repr

/-- Translation of the CVE object: nilable metadata, problem types and
description sections. -/
structure CVEJSON : Type where
  CVEDataMeta : Option CVEDataMetaJSON
  Problemtype : Option ProblemtypeJSON
  Description : Option DescriptionJSON
deriving DecidableEq, Repr

/-- Translation of the CVSS v2 object, restricted to `BaseScore`. -/
structure CVSSV2JSON : Type where
  BaseScore : Float

/-- Translation of `BaseMetricV2`: a nilable CVSS v2 object. -/
structure BaseMetricV2JSON : Type where
  CVSSV2 : Option CVSSV2JSON

/-- Translation of the CVSS v3 object, restricted to `BaseScore`. -/
structure CVSSV3JSON : Type where
  BaseScore : Float

/-- Translation of `BaseMetricV3`: a nilable CVSS v3 object. -/
structure BaseMetricV3JSON : Type where
  CVSSV3 : Option CVSSV3JSON

/-- Translation of the `Impact` section with its nilable metrics. -/
structure ImpactJSON : Type where
  BaseMetricV2 : Option BaseMetricV2JSON
  BaseMetricV3 : Option BaseMetricV3JSON

/-- Translation of the `Configurations` section: its `Nodes` slice. -/
structure ConfigurationsJSON : Type where
  Nodes : List NodeJSON

/-- Translation of `jsonschema.NVDCVEFeedJSON10DefCVEItem`, restricted
to the sections read by `interfaces.go`; each section is nilable. -/
structure CVEItemJSON : Type where
  CVE : Option CVEJSON
  Configurations : Option ConfigurationsJSON
  Impact : Option ImpactJSON

/-! ## The adapter types of `interfaces.go` -/

/-- Translation of the `node` wrapper struct: the raw node, the child
wrappers and the resolved identifiers (a Go slice of nilable pointers,
hence a list of options). -/
inductive Node : Type where
  | mk : NodeJSON → List Node → List (Option Attributes) → Node

def Node.node : Node → NodeJSON
  | Node.mk r _ _ => r

def Node.nvdcommonChildren : Node → List Node
  | Node.mk _ c _ => c

def Node.wfnCPEs : Node → List (Option Attributes)
  | Node.mk _ _ w => w

/-- Translation of the `cpeMatch` wrapper struct: the raw match entry
and the memoized parsed identifier (`wfname`, nil until resolved). -/
structure CpeMatch : Type where
  cpeMatch : CPEMatchJSON
  wfname : Option Attributes
deriving DecidableEq, Repr

/-- Translation of the `cveItem` wrapper struct: the raw record plus
the configuration nodes built at construction. -/
structure CveItem : Type where
  cveItem : CVEItemJSON
  configNodes : List Node

/-! ## Identifier resolution and construction -/

/-- Translation of `node2CPE`. The raw identifier is parsed at most
once per wrapper: a memoized `wfname` is returned as is, otherwise the
primary URI (or, when it is empty, the legacy one) is handed to the
external parser and the outcome, nil on failure, is stored back into
the wrapper. The external `wfn.Parse` is passed in as `parse`; the Go
nil-receiver guard is dropped because every call site in the source
passes a freshly allocated wrapper. Returns the parse outcome together
with the updated wrapper. -/
def node2CPE (parse : String → Option Attributes) (node : CpeMatch) :
    Option Attributes × CpeMatch :=
  match node.wfname with
  | some w => (some w, node)
  | none =>
    let uri := if node.cpeMatch.Cpe23Uri = "" then node.cpeMatch.Cpe22Uri
               else node.cpeMatch.Cpe23Uri
    let r := parse uri
    (r, { node with wfname := r })

/-- Translation of `newNode`: wrap the raw node; when it has children,
store one wrapper per raw child built directly with the struct literal
(child wrappers get empty child and identifier lists); when it has CPE
match entries, store a slice with one slot per entry, holding the
resolved identifier when parsing succeeded and nil otherwise. -/
def newNode (parse : String → Option Attributes) (json : NodeJSON) : Node :=
  let nvdcommonChildren : List Node :=
    if json.Children.length ≠ 0 then
      json.Children.map (fun child => Node.mk child [] [])
    else []
  let wfnCPEs : List (Option Attributes) :=
    if json.CPEMatch.length ≠ 0 then
      json.CPEMatch.map
        (fun m => (node2CPE parse { cpeMatch := m, wfname := none }).1)
    else []
  Node.mk json nvdcommonChildren wfnCPEs

/-- Translation of `newCveItem`: the constructor dereferences the
`Configurations` section unconditionally, so an absent section is a
panic (`none`); otherwise each raw configuration node is wrapped with
`newNode`. -/
def newCveItem (parse : String → Option Attributes) (json : CVEItemJSON) :
    Option CveItem :=
  match json.Configurations with
  | none => none
  | some cfg =>
    some { cveItem := json, configNodes := cfg.Nodes.map (fun n => newNode parse n) }

/-! ## Record accessors (`cveItem` methods); the receiver is an
`Option` because the Go methods may be invoked on a nil pointer, and a
`none` result models a nil-dereference panic. -/

/-- Translation of `CVEID`: a nil receiver yields the empty string;
otherwise `CVE` and `CVEDataMeta` are dereferenced unconditionally, so
their absence is a panic. -/
def CVEID : Option CveItem → Option String
  | none => some ""
  | some i =>
    match i.cveItem.CVE with
    | none => none
    | some cve =>
      match cve.CVEDataMeta with
      | none => none
      | some meta => some meta.ID

/-- Translation of `Config`: a nil receiver yields a nil slice. -/
def Config : Option CveItem → List Node
  | none => []
  | some i => i.configNodes

/-- Translation of `getLangStr`, with the accumulator `s` of the Go
loop made explicit: each non-nil entry overwrites `s` with its value,
and the loop stops early at the first entry whose language is `en`. -/
def getLangStrAux (s : String) : List (Option LangString) → String
  | [] => s
  | none :: rest => getLangStrAux s rest
  | some ls :: rest =>
    if ls.Lang = "en" then ls.Value else getLangStrAux ls.Value rest

/-- Translation of `getLangStr`: run the loop with the zero-value
accumulator. -/
def getLangStr (lss : List (Option LangString)) : String :=
  getLangStrAux "" lss

/-- Translation of `ProblemTypes`: a nil receiver panics (the struct
field is dereferenced before any guard); an absent CVE section, absent
metadata or empty ID yields nil; otherwise one classification string
per non-nil problem-type entry. -/
def ProblemTypes : Option CveItem → Option (List String)
  | none => none
  | some i =>
    match i.cveItem.CVE with
    | none => some []
    | some cve =>
      match cve.CVEDataMeta with
      | none => some []
      | some meta =>
        if meta.ID = "" then some []
        else
          some (match cve.Problemtype with
            | none => []
            | some pt =>
              pt.ProblemtypeData.filterMap
                (fun entry => entry.map (fun e => getLangStr e.Description)))

/-- Translation of `Description`: the receiver, the CVE section and
its description section are dereferenced unconditionally (absence is a
panic); the loop returns the value of the first entry, or the empty
string when the list is empty; a nil first entry is a panic. -/
def Description : Option CveItem → Option String
  | none => none
  | some i =>
    match i.cveItem.CVE with
    | none => none
    | some cve =>
      match cve.Description with
      | none => none
      | some d =>
        match d.DescriptionData with
        | [] => some ""
        | none :: _ => none
        | some e :: _ => some e.Value

/-- Translation of `CVSS20base`: the receiver is dereferenced
unconditionally, then each nesting level of the impact section is
nil-checked, defaulting to 0.0. -/
def CVSS20base : Option CveItem → Option Float
  | none => none
  | some i =>
    match i.cveItem.Impact with
    | none => some 0.0
    | some imp =>
      match imp.BaseMetricV2 with
      | none => some 0.0
      | some bm =>
        match bm.CVSSV2 with
        | none => some 0.0
        | some c => some c.BaseScore

/-- Translation of `CVSS30base`, symmetric to `CVSS20base`. -/
def CVSS30base : Option CveItem → Option Float
  | none => none
  | some i =>
    match i.cveItem.Impact with
    | none => some 0.0
    | some imp =>
      match imp.BaseMetricV3 with
      | none => some 0.0
      | some bm =>
        match bm.CVSSV3 with
        | none => some 0.0
        | some c => some c.BaseScore

/-! ## Node accessors (`node` methods); the receiver is an `Option`
because the source explicitly supports nil receivers. -/

/-- Translation of `LogicalOperator`: nil receiver yields the empty
string, otherwise the raw operator. -/
def LogicalOperator : Option Node → String
  | none => ""
  | some n => n.node.Operator

/-- Translation of `NegateIfNeeded`: nil receiver or unset negate flag
returns the argument unchanged, otherwise its negation. -/
def NegateIfNeeded (n : Option Node) (b : Bool) : Bool :=
  match n with
  | none => b
  | some n => if !n.node.Negate then b else !b

/-- Translation of `InnerTests`: nil receiver yields a nil slice,
otherwise the stored child wrappers. -/
def InnerTests : Option Node → List Node
  | none => []
  | some n => n.nvdcommonChildren

/-- Translation of `CPEs`: nil receiver yields a nil slice, otherwise
the identifier slice stored at construction. -/
def CPEs : Option Node → List (Option Attributes)
  | none => []
  | some n => n.wfnCPEs

/-- Presence of at least one of the four version bounds; the source
tests this disjunction at lines 178-179 and its negation (all four
fields empty) at lines 191-192 of `interfaces.go`. -/
def boundsPresent (m : CPEMatchJSON) : Bool :=
  m.VersionStartIncluding != "" || m.VersionStartExcluding != "" ||
  m.VersionEndIncluding != "" || m.VersionEndExcluding != ""

/-- Translation of one iteration of the `MatchPlatform` loop body over
a single raw CPE match entry. The result is `some b` for an in-loop
`return b` and `none` for `continue` (including a failed parse and a
failed structural match). The wrapper handed to `node2CPE` is freshly
allocated, exactly as at line 172 of the source, so its memo field is
nil. The two final wildcard arms are unreachable because a wildcard
platform version already returned `true` above; they are given the
same value that the source would have returned there. -/
def ruleOutcome (parse : String → Option Attributes) (platform : Attributes)
    (requireVersion : Bool) (cpeNode : CPEMatchJSON) : Option Bool :=
  match (node2CPE parse { cpeMatch := cpeNode, wfname := none }).1 with
  | none => none
  | some cpe0 =>
    let cpe := if boundsPresent cpeNode then { cpe0 with Version := AttrVal.Any }
               else cpe0
    if !boundsPresent cpeNode && requireVersion && (cpe0.Version == AttrVal.Any) then
      none
    else if wfnMatch cpe platform then
      if platform.Version = AttrVal.Any ∨ platform.Version = AttrVal.NA then
        some true
      else if !boundsPresent cpeNode then
        some true
      else if cpe.Version = AttrVal.NA then
        some false
      else
        match platform.Version with
        | AttrVal.Val pv =>
          let ver := stripSlashes pv
          if cpeNode.VersionStartIncluding ≠ "" ∧
              smartVerCmp ver cpeNode.VersionStartIncluding < 0 then none
          else if cpeNode.VersionStartExcluding ≠ "" ∧
              smartVerCmp ver cpeNode.VersionStartExcluding ≤ 0 then none
          else if cpeNode.VersionEndIncluding ≠ "" ∧
              smartVerCmp ver cpeNode.VersionEndIncluding > 0 then none
          else if cpeNode.VersionEndExcluding ≠ "" ∧
              smartVerCmp ver cpeNode.VersionEndExcluding ≥ 0 then none
          else some true
        | AttrVal.Any => some true
        | AttrVal.NA => some true
    else none

/-- Translation of the `MatchPlatform` loop over the raw CPE match
entries: the first in-loop return wins, a fully traversed list yields
false. -/
def matchCPELoop (parse : String → Option Attributes) (platform : Attributes)
    (requireVersion : Bool) : List CPEMatchJSON → Bool
  | [] => false
  | cpeNode :: rest =>
    match ruleOutcome parse platform requireVersion cpeNode with
    | some b => b
    | none => matchCPELoop parse platform requireVersion rest

/-- Translation of `MatchPlatform`: nil receiver yields false,
otherwise the loop runs over the raw CPE match entries of the wrapped
node (not over the identifiers resolved at construction). -/
def MatchPlatform (parse : String → Option Attributes) :
    Option Node → Attributes → Bool → Bool
  | none, _, _ => false
  | some n, platform, requireVersion =>
    matchCPELoop parse platform requireVersion n.node.CPEMatch

/-! ## Concrete fixtures used by the witnesses and counterexamples -/

/-- Identifier with every attribute ANY. -/
def attrsAllAny : Attributes :=
  ⟨AttrVal.Any, AttrVal.Any, AttrVal.Any, AttrVal.Any, AttrVal.Any, AttrVal.Any,
    AttrVal.Any⟩

/-- Identifier with a concrete version and every other attribute ANY. -/
def attrsVer (s : String) : Attributes :=
  { attrsAllAny with Version := AttrVal.Val s }

/-- Identifier with version NA and every other attribute ANY. -/
def attrsNAver : Attributes :=
  { attrsAllAny with Version := AttrVal.NA }

/-- Concrete instantiation of the external parser for the fixtures:
three well-formed URIs resolve, everything else fails. -/
def parseDemo : String → Option Attributes := fun s =>
  if s = "cpe:any" then some attrsAllAny
  else if s = "cpe:na" then some attrsNAver
  else if s = "cpe:fixed" then some (attrsVer "1.0")
  else none

/-- Concrete instantiation of the external parser that fails on every
input. -/
def parseNone : String → Option Attributes := fun _ => none

/-- Rule with target version ANY and bounds startIncluding 2.0,
endExcluding 3.0. -/
def mC5 : CPEMatchJSON := ⟨"cpe:any", "", "2.0", "", "", "3.0"⟩

/-- Rule whose target resolves with version NA and which declares the
bound startIncluding 1.0. -/
def mC2 : CPEMatchJSON := ⟨"cpe:na", "", "1.0", "", "", ""⟩

/-- Rule with a fixed target version 1.0 and no bounds. -/
def mGood : CPEMatchJSON := ⟨"cpe:fixed", "", "", "", "", ""⟩

/-- Rule whose target URI does not parse. -/
def mBad : CPEMatchJSON := ⟨"cpe:bad", "", "", "", "", ""⟩

/-- Raw leaf grouping (a grandchild of `rawDeep`). -/
def rawGrand : NodeJSON := NodeJSON.mk "OR" false [] [mGood]

/-- Raw grouping with one child grouping and one rule of its own. -/
def rawChildDeep : NodeJSON := NodeJSON.mk "OR" false [rawGrand] [mGood]

/-- Raw three-level grouping: the top node has one child, which has
one grandchild. -/
def rawDeep : NodeJSON := NodeJSON.mk "AND" false [rawChildDeep] []

/-- Raw single-rule grouping used for the caching fixtures. -/
def rawC3 : NodeJSON := NodeJSON.mk "OR" false [] [mGood]

/-- Raw grouping holding one unparsable and one parsable rule. -/
def rawC7 : NodeJSON := NodeJSON.mk "OR" false [] [mBad, mGood]

/-- Wrapper that already memoized a resolved identifier. -/
def cmCached : CpeMatch := { cpeMatch := mGood, wfname := some (attrsVer "1.0") }

/-- Record whose CVE, Configurations and Impact sections are all
absent. -/
def itemNoCVE : CveItem := ⟨⟨none, none, none⟩, []⟩

/-- Record whose CVE section is present but holds no metadata, with a
problem-type entry present. -/
def itemMetaNone : CveItem :=
  ⟨⟨some ⟨none, some ⟨[some ⟨[some ⟨"en", "CWE-79"⟩]⟩]⟩, none⟩, none, none⟩, []⟩

/-- Record whose CVE section is present but whose description section
is absent. -/
def itemDescNone : CveItem := ⟨⟨some ⟨none, none, none⟩, none, none⟩, []⟩

/-- Record with a present but empty description list. -/
def itemDescEmpty : CveItem := ⟨⟨some ⟨none, none, some ⟨[]⟩⟩, none, none⟩, []⟩

/-- Record with an empty identifier but problem-type entries present. -/
def itemGated : CveItem :=
  ⟨⟨some ⟨some ⟨""⟩, some ⟨[some ⟨[some ⟨"en", "CWE-79"⟩]⟩]⟩, none⟩, none, none⟩, []⟩

/-- Modelled from the spec for comparison with `getLangStr`: the value
of the first English-language variant, when one exists. -/
def firstEnglish : List (Option LangString) → Option String
  | [] => none
  | none :: rest => firstEnglish rest
  | some ls :: rest => if ls.Lang = "en" then some ls.Value else firstEnglish rest

/-- Modelled from the spec for comparison with `getLangStr`: the value
of the last non-nil variant, when one exists. -/
def lastValue : List (Option LangString) → Option String
  | [] => none
  | none :: rest => lastValue rest
  | some ls :: rest =>
    match lastValue rest with
    | some v => some v
    | none => some ls.Value

/-! ## Helper lemmas -/

/-- Each loop iteration of `smartVerCmp` advances the string by at
least one character, so the fuel of `cmpLoop` is never exhausted. -/
theorem parseVerParts_skip_pos (v : List Char) (h : v ≠ []) :
    1 ≤ (parseVerParts v).2.2 := by
  unfold parseVerParts
  have hlen : 1 ≤ v.length := List.length_pos.mpr h
  by_cases hnum : digitRun v = v.length
  · simp [hnum]; omega
  · simp only [hnum, if_false]
    cases hfind : v.findIdx? isPunct with
    | none => simpa using hlen
    | some skip => simp

/-- Behaviour of the `MatchPlatform` loop on a single rule that
declares at least one bound, once the target has resolved, the forced
structural match holds and the platform version is concrete: the loop
yields true exactly when no bound check fails. -/
theorem matchCPELoop_single_forced (parse : String → Option Attributes)
    (m : CPEMatchJSON) (cpe platform : Attributes) (rv : Bool) (pv : String)
    (hres : (node2CPE parse { cpeMatch := m, wfname := none }).1 = some cpe)
    (hb : boundsPresent m = true)
    (hmatch : wfnMatch { cpe with Version := AttrVal.Any } platform = true)
    (hver : platform.Version = AttrVal.Val pv) :
    (matchCPELoop parse platform rv [m] = true ↔
      (¬(m.VersionStartIncluding ≠ "" ∧
          smartVerCmp (stripSlashes pv) m.VersionStartIncluding < 0) ∧
       ¬(m.VersionStartExcluding ≠ "" ∧
          smartVerCmp (stripSlashes pv) m.VersionStartExcluding ≤ 0) ∧
       ¬(m.VersionEndIncluding ≠ "" ∧
          smartVerCmp (stripSlashes pv) m.VersionEndIncluding > 0) ∧
       ¬(m.VersionEndExcluding ≠ "" ∧
          smartVerCmp (stripSlashes pv) m.VersionEndExcluding ≥ 0))) := by
  simp only [matchCPELoop, ruleOutcome, hres, hb, hver, hmatch, Bool.not_true,
    Bool.false_and, Bool.if_false_left, Bool.if_true_left, if_true, if_false,
    Bool.false_eq_true, reduceCtorEq, or_self, ite_true, ite_false]
  split_ifs with h1 h2 h3 h4 <;> simp_all

/-- Relation between the loop accumulator of `getLangStr` and the
declarative description: first English value if any, else the last
non-nil value, else the accumulator. -/
theorem getLangStrAux_spec (lss : List (Option LangString)) (s : String) :
    getLangStrAux s lss =
      match firstEnglish lss with
      | some v => v
      | none => (lastValue lss).getD s := by
  induction lss generalizing s with
  | nil => rfl
  | cons hd rest ih =>
    cases hd with
    | none => simpa [getLangStrAux, firstEnglish, lastValue] using ih s
    | some ls =>
      by_cases hen : ls.Lang = "en"
      · simp [getLangStrAux, firstEnglish, lastValue, hen]
      · simp only [getLangStrAux, firstEnglish, lastValue, hen, if_false]
        rw [ih ls.Value]
        cases hfe : firstEnglish rest
        · cases hlv : lastValue rest <;> simp [hlv]
        · simp

/-! ## Claims -/

/-- C4 (counterexample): the comparator does not interpret the leading
digit runs as integers. On "010" versus "20" the run of "010" is
longer, so the source returns 1, while a numeric reading (10 versus
20) would demand a negative result. The two length-free examples of
the claim do hold. -/
theorem c4_leading_zeros_counterexample :
    smartVerCmp "010" "20" = 1 ∧ ¬ smartVerCmp "010" "20" < 0 ∧
    smartVerCmp "9" "10" = -1 ∧ smartVerCmp "1.9" "1.10" = -1 := by decide

/-- C4 (amended): when the leading digit runs of the two versions have
different lengths, `smartVerCmp` is decided by the run lengths alone:
the longer run wins, regardless of the digits. This agrees with the
numeric comparison of the claim exactly when neither run has leading
zeros. -/
theorem c4_digit_run_length_wins (v1 v2 : String)
    (h1 : v1.data ≠ []) (h2 : v2.data ≠ [])
    (h : (parseVerParts v1.data).1 ≠ (parseVerParts v2.data).1) :
    smartVerCmp v1 v2 =
      if (parseVerParts v1.data).1 > (parseVerParts v2.data).1 then 1 else -1 := by
  have he1 : v1.data.isEmpty = false := by
    cases hv : v1.data with
    | nil => exact absurd hv h1
    | cons a as => rfl
  have he2 : v2.data.isEmpty = false := by
    cases hv : v2.data with
    | nil => exact absurd hv h2
    | cons a as => rfl
  unfold smartVerCmp
  by_cases hgt : (parseVerParts v1.data).1 > (parseVerParts v2.data).1
  · simp [cmpLoop, he1, he2, hgt]
  · have hlt : (parseVerParts v2.data).1 > (parseVerParts v1.data).1 := by omega
    simp [cmpLoop, he1, he2, hgt, hlt, Nat.lt_asymm hlt]

/-- C4 (witness): the amended theorem applied at the concrete pair
("010", "20"), whose digit runs have lengths 3 and 2. -/
theorem c4_digit_run_length_wins_witness :
    "010".data ≠ ([] : List Char) ∧ "20".data ≠ ([] : List Char) ∧
    (parseVerParts "010".data).1 ≠ (parseVerParts "20".data).1 ∧
    smartVerCmp "010" "20" =
      (if (parseVerParts "010".data).1 > (parseVerParts "20".data).1 then 1 else -1) :=
  ⟨by decide, by decide, by decide,
    c4_digit_run_length_wins "010" "20" (by decide) (by decide) (by decide)⟩

/-- C6 (counterexample): with the two non-English variants fr then de,
`getLangStr` returns the value of the last variant, not of the first
as the claim states. -/
theorem c6_fallback_counterexample :
    getLangStr [some ⟨"fr", "A"⟩, some ⟨"de", "B"⟩] = "B" ∧
    getLangStr [some ⟨"fr", "A"⟩, some ⟨"de", "B"⟩] ≠ "A" := by decide

/-- C6 (amended): `getLangStr` prefers the value of the first
English-language variant; when no English variant exists it falls
back to the value of the last non-nil variant, and to the empty
string when there is none. -/
theorem c6_english_else_last (lss : List (Option LangString)) :
    getLangStr lss =
      match firstEnglish lss with
      | some v => v
      | none => (lastValue lss).getD "" :=
  getLangStrAux_spec lss ""

/-- C9: every accessor invoked on an absent node instance returns the
neutral value of its type: empty operator string, the negation
argument unchanged, empty child and identifier sequences, and a false
match. -/
theorem c9_absent_node_neutral :
    LogicalOperator none = "" ∧
    (∀ b : Bool, NegateIfNeeded none b = b) ∧
    InnerTests none = [] ∧
    CPEs none = [] ∧
    (∀ (parse : String → Option Attributes) (platform : Attributes) (rv : Bool),
      MatchPlatform parse none platform rv = false) :=
  ⟨rfl, fun _ => rfl, rfl, rfl, fun _ _ _ => rfl⟩

/-- C1 (counterexample): construction is not recursive. In the
three-level raw tree `rawDeep`, whose child grouping has both a child
grouping and a rule of its own, the node built for the top level
exposes a child wrapper with empty child and identifier lists, so the
grandchild is not reachable through two applications of `InnerTests`
and the child leaf is not resolved. -/
theorem c1_grandchild_unreachable :
    rawChildDeep.Children.length = 1 ∧
    rawChildDeep.CPEMatch.length = 1 ∧
    InnerTests (some (newNode parseDemo rawDeep)) = [Node.mk rawChildDeep [] []] ∧
    InnerTests (some (Node.mk rawChildDeep [] [])) = [] ∧
    CPEs (some (Node.mk rawChildDeep [] [])) = [] :=
  ⟨rfl, rfl, rfl, rfl, rfl⟩

/-- C1 (amended): `newNode` wraps each raw child grouping shallowly:
every node exposed by `InnerTests` of a freshly built node has empty
child and resolved-identifier lists, whatever the raw child contains.
Only the top-level node of each construction has its own rules
resolved. -/
theorem c1_children_shallow (parse : String → Option Attributes) (json : NodeJSON)
    (c : Node) (hc : c ∈ InnerTests (some (newNode parse json))) :
    InnerTests (some c) = [] ∧ CPEs (some c) = [] := by
  have hit : InnerTests (some (newNode parse json)) =
      if json.Children.length ≠ 0 then
        json.Children.map (fun child => Node.mk child [] [])
      else [] := rfl
  rw [hit] at hc
  by_cases h : json.Children.length ≠ 0
  · rw [if_pos h] at hc
    rcases List.mem_map.mp hc with ⟨child, _, rfl⟩
    exact ⟨rfl, rfl⟩
  · rw [if_neg h] at hc
    exact absurd hc (List.not_mem_nil c)

/-- C1 (witness): the amended theorem applied to the child wrapper
exposed by the top-level node built from `rawDeep`. -/
theorem c1_children_shallow_witness :
    Node.mk rawChildDeep [] [] ∈ InnerTests (some (newNode parseDemo rawDeep)) ∧
    InnerTests (some (Node.mk rawChildDeep [] [])) = [] ∧
    CPEs (some (Node.mk rawChildDeep [] [])) = [] := by
  have hmem : Node.mk rawChildDeep [] [] ∈ InnerTests (some (newNode parseDemo rawDeep)) := by
    have h : InnerTests (some (newNode parseDemo rawDeep)) = [Node.mk rawChildDeep [] []] := rfl
    rw [h]
    exact List.mem_singleton.mpr rfl
  exact ⟨hmem, (c1_children_shallow parseDemo rawDeep _ hmem).1,
    (c1_children_shallow parseDemo rawDeep _ hmem).2⟩

/-- C3 (counterexample): the identifiers resolved at construction are
not reused at query time. The node built from `rawC3` with the working
parser stores the resolved identifier, yet `MatchPlatform` with a
failing parser on the very same node finds no match, while with the
working parser it does: the query re-invokes the parser instead of
reading the cache. -/
theorem c3_query_reparses_counterexample :
    CPEs (some (newNode parseDemo rawC3)) = [some (attrsVer "1.0")] ∧
    MatchPlatform parseDemo (some (newNode parseDemo rawC3)) (attrsVer "1.0") false = true ∧
    MatchPlatform parseNone (some (newNode parseDemo rawC3)) (attrsVer "1.0") false = false := by
  decide

/-- C3 (amended): `node2CPE` does memoize on the wrapper it receives,
returning an already resolved identifier unchanged; but
`MatchPlatform` allocates a fresh wrapper for every rule on every
call, so its result depends only on the raw node and never on the
identifiers resolved at construction, which therefore are parsed
again on each query. -/
theorem c3_memo_per_wrapper_only :
    (∀ (parse : String → Option Attributes) (cm : CpeMatch) (w : Attributes),
      cm.wfname = some w → node2CPE parse cm = (some w, cm)) ∧
    (∀ (parse : String → Option Attributes) (raw : NodeJSON) (ch1 ch2 : List Node)
      (cp1 cp2 : List (Option Attributes)) (platform : Attributes) (rv : Bool),
      MatchPlatform parse (some (Node.mk raw ch1 cp1)) platform rv =
        MatchPlatform parse (some (Node.mk raw ch2 cp2)) platform rv) := by
  constructor
  · intro parse cm w h
    unfold node2CPE
    rw [h]
  · intro parse raw ch1 ch2 cp1 cp2 platform rv
    rfl

/-- C3 (witness): the amended theorem applied to a wrapper that
already memoized an identifier, and to a node wrapper with two
different construction-time identifier lists. -/
theorem c3_memo_per_wrapper_only_witness :
    node2CPE parseDemo cmCached = (some (attrsVer "1.0"), cmCached) ∧
    MatchPlatform parseDemo (some (Node.mk rawC3 [] [])) (attrsVer "1.0") false =
      MatchPlatform parseDemo (some (Node.mk rawC3 [] [some (attrsVer "1.0")]))
        (attrsVer "1.0") false :=
  ⟨c3_memo_per_wrapper_only.1 parseDemo cmCached (attrsVer "1.0") rfl,
   c3_memo_per_wrapper_only.2 parseDemo rawC3 [] [] [] [some (attrsVer "1.0")]
     (attrsVer "1.0") false⟩

/-- C7 (counterexample): a failed entry is not omitted. The node built
from `rawC7`, whose first rule does not parse and whose second does,
exposes a two-slot identifier sequence whose first slot is a nil
placeholder. -/
theorem c7_placeholder_counterexample :
    CPEs (some (newNode parseDemo rawC7)) = [none, some (attrsVer "1.0")] ∧
    (CPEs (some (newNode parseDemo rawC7))).length = 2 := by decide

/-- C7 (amended): `CPEs` returns one slot per raw rule of the node, in
order: the resolved identifier where parsing succeeded and a nil
placeholder where it failed, so the length always equals the number of
raw rules. -/
theorem c7_one_slot_per_rule (parse : String → Option Attributes) (json : NodeJSON) :
    CPEs (some (newNode parse json)) =
      json.CPEMatch.map
        (fun m => (node2CPE parse { cpeMatch := m, wfname := none }).1) ∧
    (CPEs (some (newNode parse json))).length = json.CPEMatch.length := by
  have hc : CPEs (some (newNode parse json)) =
      if json.CPEMatch.length ≠ 0 then
        json.CPEMatch.map
          (fun m => (node2CPE parse { cpeMatch := m, wfname := none }).1)
      else [] := rfl
  by_cases h : json.CPEMatch.length ≠ 0
  · rw [hc, if_pos h]
    exact ⟨rfl, by simp⟩
  · have hnil : json.CPEMatch = [] := List.length_eq_zero.mp (by omega)
    rw [hc, if_neg h, hnil]
    exact ⟨rfl, rfl⟩

/-- C5: for a rule that resolves, declares at least one bound, and
whose forced structural match against a platform with a concrete
version succeeds, `MatchPlatform` on the node holding that single rule
returns true exactly when every present bound passes under
`smartVerCmp` against the escape-stripped platform version. -/
theorem c5_bounds_anded_iff (parse : String → Option Attributes)
    (m : CPEMatchJSON) (cpe platform : Attributes) (rv : Bool) (pv : String)
    (op : String) (neg : Bool)
    (hres : (node2CPE parse { cpeMatch := m, wfname := none }).1 = some cpe)
    (hb : boundsPresent m = true)
    (hmatch : wfnMatch { cpe with Version := AttrVal.Any } platform = true)
    (hver : platform.Version = AttrVal.Val pv) :
    (MatchPlatform parse (some (newNode parse (NodeJSON.mk op neg [] [m])))
        platform rv = true ↔
      ((m.VersionStartIncluding = "" ∨
          0 ≤ smartVerCmp (stripSlashes pv) m.VersionStartIncluding) ∧
       (m.VersionStartExcluding = "" ∨
          0 < smartVerCmp (stripSlashes pv) m.VersionStartExcluding) ∧
       (m.VersionEndIncluding = "" ∨
          smartVerCmp (stripSlashes pv) m.VersionEndIncluding ≤ 0) ∧
       (m.VersionEndExcluding = "" ∨
          smartVerCmp (stripSlashes pv) m.VersionEndExcluding < 0))) := by
  have hstep : MatchPlatform parse (some (newNode parse (NodeJSON.mk op neg [] [m])))
      platform rv = matchCPELoop parse platform rv [m] := rfl
  rw [hstep, matchCPELoop_single_forced parse m cpe platform rv pv hres hb hmatch hver]
  constructor
  · rintro ⟨a, b, c, d⟩
    push_neg at a b c d
    exact ⟨or_iff_not_imp_left.mpr a, or_iff_not_imp_left.mpr b,
      or_iff_not_imp_left.mpr c, or_iff_not_imp_left.mpr d⟩
  · rintro ⟨a, b, c, d⟩
    refine ⟨?_, ?_, ?_, ?_⟩ <;> rintro ⟨hne, hcmp⟩
    · rcases a with h | h
      · exact hne h
      · omega
    · rcases b with h | h
      · exact hne h
      · omega
    · rcases c with h | h
      · exact hne h
      · omega
    · rcases d with h | h
      · exact hne h
      · omega

/-- C5 (witness): the rule with startIncluding 2.0 and endExcluding
3.0 accepts the platform versions 2.5 (through the claim theorem) and
2.0, and rejects 1.9 and 3.0. -/
theorem c5_bounds_anded_iff_witness :
    MatchPlatform parseDemo (some (newNode parseDemo (NodeJSON.mk "OR" false [] [mC5])))
      (attrsVer "2.5") false = true ∧
    MatchPlatform parseDemo (some (newNode parseDemo (NodeJSON.mk "OR" false [] [mC5])))
      (attrsVer "2.0") false = true ∧
    MatchPlatform parseDemo (some (newNode parseDemo (NodeJSON.mk "OR" false [] [mC5])))
      (attrsVer "1.9") false = false ∧
    MatchPlatform parseDemo (some (newNode parseDemo (NodeJSON.mk "OR" false [] [mC5])))
      (attrsVer "3.0") false = false := by
  refine ⟨?_, by decide, by decide, by decide⟩
  exact (c5_bounds_anded_iff parseDemo mC5 attrsAllAny (attrsVer "2.5") false "2.5"
    "OR" false (by decide) (by decide) (by decide) (by decide)).mpr
    ⟨Or.inr (by decide), Or.inl (by decide), Or.inl (by decide), Or.inr (by decide)⟩

/-- C2 (counterexample): the rule `mC2` resolves with version NA and
declares the bound startIncluding 1.0, the platform version 2.0 is
concrete, and yet `MatchPlatform` reports a match through that rule:
the forcing of the target version to ANY happens before the NA check,
so the NA-skip branch never fires for a rule with bounds. -/
theorem c2_na_target_matches_counterexample :
    (node2CPE parseDemo { cpeMatch := mC2, wfname := none }).1 = some attrsNAver ∧
    attrsNAver.Version = AttrVal.NA ∧
    boundsPresent mC2 = true ∧
    (attrsVer "2.0").Version = AttrVal.Val "2.0" ∧
    MatchPlatform parseDemo (some (newNode parseDemo (NodeJSON.mk "OR" false [] [mC2])))
      (attrsVer "2.0") false = true := by decide

/-- C2 (amended): a rule whose target resolves with version NA but
declares at least one bound is evaluated as if its version were ANY:
whenever the forced structural match succeeds and every present bound
passes, it does match the concrete platform version. -/
theorem c2_na_target_forced_any (parse : String → Option Attributes)
    (m : CPEMatchJSON) (cpe platform : Attributes) (rv : Bool) (pv : String)
    (op : String) (neg : Bool)
    (hres : (node2CPE parse { cpeMatch := m, wfname := none }).1 = some cpe)
    (_hna : cpe.Version = AttrVal.NA)
    (hb : boundsPresent m = true)
    (hmatch : wfnMatch { cpe with Version := AttrVal.Any } platform = true)
    (hver : platform.Version = AttrVal.Val pv)
    (hpass : (m.VersionStartIncluding = "" ∨
        0 ≤ smartVerCmp (stripSlashes pv) m.VersionStartIncluding) ∧
      (m.VersionStartExcluding = "" ∨
        0 < smartVerCmp (stripSlashes pv) m.VersionStartExcluding) ∧
      (m.VersionEndIncluding = "" ∨
        smartVerCmp (stripSlashes pv) m.VersionEndIncluding ≤ 0) ∧
      (m.VersionEndExcluding = "" ∨
        smartVerCmp (stripSlashes pv) m.VersionEndExcluding < 0)) :
    MatchPlatform parse (some (newNode parse (NodeJSON.mk op neg [] [m])))
      platform rv = true := by
  have hstep : MatchPlatform parse (some (newNode parse (NodeJSON.mk op neg [] [m])))
      platform rv = matchCPELoop parse platform rv [m] := rfl
  rw [hstep, matchCPELoop_single_forced parse m cpe platform rv pv hres hb hmatch hver]
  obtain ⟨a, b, c, d⟩ := hpass
  refine ⟨?_, ?_, ?_, ?_⟩ <;> rintro ⟨hne, hcmp⟩
  · rcases a with h | h
    · exact hne h
    · omega
  · rcases b with h | h
    · exact hne h
    · omega
  · rcases c with h | h
    · exact hne h
    · omega
  · rcases d with h | h
    · exact hne h
    · omega

/-- C2 (witness): the amended theorem applied to the NA-target rule
`mC2` and the concrete platform version 2.0. -/
theorem c2_na_target_forced_any_witness :
    MatchPlatform parseDemo (some (newNode parseDemo (NodeJSON.mk "OR" false [] [mC2])))
      (attrsVer "2.0") false = true :=
  c2_na_target_forced_any parseDemo mC2 attrsNAver (attrsVer "2.0") false "2.0"
    "OR" false (by decide) (by decide) (by decide) (by decide) (by decide)
    ⟨Or.inr (by decide), Or.inl (by decide), Or.inl (by decide), Or.inl (by decide)⟩

/-- C8 (counterexample): `CVEID` is not total on absent identity
metadata: on a record whose CVE section is present but whose metadata
is nil it dereferences the nil metadata pointer (modelled as `none`)
instead of returning the empty string demanded by the claim. -/
theorem c8_accessor_panic_counterexample :
    CVEID (some itemMetaNone) = none ∧
    CVEID (some itemMetaNone) ≠ some "" ∧
    Description (some itemNoCVE) = none := by decide

/-- C8 (amended): `ProblemTypes`, `CVSS20base` and `CVSS30base` are
defaulted on absent sections (empty list, score 0.0), and `Description`
returns the empty string only for a present but empty description
list; but `CVEID` dereferences the CVE section and its metadata
unconditionally and `Description` dereferences the CVE and description
sections unconditionally, so those accessors fail on absent sections,
the nil-receiver default of `CVEID` notwithstanding. -/
theorem c8_defaults_not_total :
    (∀ i : CveItem, i.cveItem.CVE = none → CVEID (some i) = none) ∧
    (CVEID none = some "") ∧
    (∀ (i : CveItem) (cve : CVEJSON), i.cveItem.CVE = some cve →
      cve.Description = none → Description (some i) = none) ∧
    (∀ (i : CveItem) (cve : CVEJSON) (d : DescriptionJSON), i.cveItem.CVE = some cve →
      cve.Description = some d → d.DescriptionData = [] → Description (some i) = some "") ∧
    (∀ i : CveItem, i.cveItem.Impact = none →
      CVSS20base (some i) = some 0.0 ∧ CVSS30base (some i) = some 0.0) ∧
    (∀ i : CveItem, i.cveItem.CVE = none → ProblemTypes (some i) = some []) := by
  refine ⟨?_, rfl, ?_, ?_, ?_, ?_⟩
  · intro i h
    simp [CVEID, h]
  · intro i cve h hd
    simp [Description, h, hd]
  · intro i cve d h hd hdd
    simp [Description, h, hd, hdd]
  · intro i h
    exact ⟨by simp [CVSS20base, h], by simp [CVSS30base, h]⟩
  · intro i h
    simp [ProblemTypes, h]

/-- C8 (witness): the amended theorem applied to concrete records with
each relevant section absent or empty. -/
theorem c8_defaults_not_total_witness :
    CVEID (some itemNoCVE) = none ∧
    CVEID none = some "" ∧
    Description (some itemDescNone) = none ∧
    Description (some itemDescEmpty) = some "" ∧
    (CVSS20base (some itemNoCVE) = some 0.0 ∧ CVSS30base (some itemNoCVE) = some 0.0) ∧
    ProblemTypes (some itemNoCVE) = some [] :=
  ⟨c8_defaults_not_total.1 itemNoCVE rfl,
   c8_defaults_not_total.2.1,
   c8_defaults_not_total.2.2.1 itemDescNone _ rfl rfl,
   c8_defaults_not_total.2.2.2.1 itemDescEmpty _ _ rfl rfl rfl,
   c8_defaults_not_total.2.2.2.2.1 itemNoCVE rfl,
   c8_defaults_not_total.2.2.2.2.2 itemNoCVE rfl⟩

/-- C10: `ProblemTypes` is gated on a non-empty record identity: when
the CVE section or its metadata is absent, or the identifier string is
empty, it returns the empty list, classification entries
notwithstanding. -/
theorem c10_problemtypes_gated (i : CveItem)
    (h : i.cveItem.CVE = none ∨
      ∃ cve, i.cveItem.CVE = some cve ∧
        (cve.CVEDataMeta = none ∨
          ∃ meta, cve.CVEDataMeta = some meta ∧ meta.ID = "")) :
    ProblemTypes (some i) = some [] := by
  rcases h with h | ⟨cve, hcve, h | ⟨meta, hmeta, hid⟩⟩
  · simp [ProblemTypes, h]
  · simp [ProblemTypes, hcve, h]
  · simp [ProblemTypes, hcve, hmeta, hid]

/-- C10 (witness): the claim theorem applied to a record with an empty
identifier whose problem-type section does hold an entry. -/
theorem c10_problemtypes_gated_witness :
    ProblemTypes (some itemGated) = some [] ∧
    (∃ cve, itemGated.cveItem.CVE = some cve ∧ cve.Problemtype ≠ none) :=
  ⟨c10_problemtypes_gated itemGated (Or.inr ⟨_, rfl, Or.inr ⟨_, rfl, rfl⟩⟩),
   ⟨_, rfl, by decide⟩⟩

end NvdJson
